import Mathlib

/-!
Verification of the crash-commerce checkout backend.

The backend is an Express handler `POST /api/checkout` together with a
payment simulator (`fakeCharge`), a provider-config resolver
(`getProviderConfig`), a provider picker (`pickPaymentProvider`), an id
generator (`randomId`) and an in-memory order store (`ORDERS`).

The embedding below is shallow and pure:
  * JavaScript numbers of the config surface are modelled as `Int`
    (latencies, prices, quantities) and `ℚ` (failure rates and the
    results of `Math.random()`, which lie in `[0, 1)`).
  * Every call to `Math.random()` is an explicit input (`Draws`), so a
    handler run is a pure function of the request, the drawn randomness,
    the environment overrides and the current order store.
  * Wall-clock measurement of the simulated sleep is idealised to the
    drawn latency itself (time is not modelled); the claims under test
    speak about the drawn latency.
  * The handler result records, besides the HTTP response and the new
    order store, how many inventory-reservation draws were performed and
    the list of payment-simulator invocations, so that claims of the
    form "no payment simulation occurs" are directly statable.
-/

namespace CrashCommerce

/-- One entry of the in-memory product catalog `PRODUCTS`. -/
structure Product where
  id : String
  priceMinor : Int
  deriving Repr, DecidableEq

/-- The product catalog (ids and prices as in the source; the display
fields name/description/badge/color are irrelevant to the handler). -/
def PRODUCTS : List Product :=
  [⟨"npe", 1299⟩, ⟨"typeerror", 999⟩, ⟨"segfault", 1999⟩,
   ⟨"syntax", 599⟩, ⟨"oom", 2499⟩]

/-- A cart line as cast by the handler: `{ productId, quantity }`.
`clientPriceMinor` models any extra client-supplied price field that may
ride along on the JSON object; the handler never reads it. -/
structure CartLine where
  productId : String
  quantity : Int
  clientPriceMinor : Option Int
  deriving Repr, DecidableEq

/-- The three fictional payment providers. -/
inductive PaymentProvider
  | ZapPay
  | GlitchPay
  | LagPay
  deriving Repr, DecidableEq

/-- The provider's name string, as it appears in `PAYMENT_PROVIDERS`. -/
def PaymentProvider.name : PaymentProvider → String
  | .ZapPay => "ZapPay"
  | .GlitchPay => "GlitchPay"
  | .LagPay => "LagPay"

/-- The list `PAYMENT_PROVIDERS = ['ZapPay', 'GlitchPay', 'LagPay']`. -/
def PAYMENT_PROVIDERS : List PaymentProvider :=
  [.ZapPay, .GlitchPay, .LagPay]

/-- `ProviderConfig` of the source: `{ minMs, maxMs, failureRate }`. -/
structure ProviderConfig where
  minMs : Int
  maxMs : Int
  failureRate : ℚ
  deriving Repr, DecidableEq

/-- `getDefaultConfig` of the source. -/
def getDefaultConfig : PaymentProvider → ProviderConfig
  | .ZapPay => ⟨50, 150, 1/20⟩
  | .GlitchPay => ⟨200, 1200, 3/10⟩
  | .LagPay => ⟨1200, 3000, 1/10⟩

/-- The nine optional numeric environment overrides
(`PAYMENT_<P>_MIN_MS`, `PAYMENT_<P>_MAX_MS`, `PAYMENT_<P>_FAILURE_RATE`),
already coerced to numbers. -/
structure Env where
  overrideMinMs : PaymentProvider → Option Int
  overrideMaxMs : PaymentProvider → Option Int
  overrideFailureRate : PaymentProvider → Option ℚ

/-- The environment with none of the nine overrides set. -/
def Env.empty : Env := ⟨fun _ => none, fun _ => none, fun _ => none⟩

/-- `getProviderConfig`: each field is the environment override when
present, else the provider's built-in default (`?? defaults.x`).
No validation or clamping happens here. -/
def getProviderConfig (env : Env) (provider : PaymentProvider) : ProviderConfig :=
  let defaults := getDefaultConfig provider
  ⟨(env.overrideMinMs provider).getD defaults.minMs,
   (env.overrideMaxMs provider).getD defaults.maxMs,
   (env.overrideFailureRate provider).getD defaults.failureRate⟩

/-- `pickPaymentProvider`: `PAYMENT_PROVIDERS[Math.floor(r * 3)]` for a
draw `r` of `Math.random()` (in `[0,1)`, under which the index is always
in range; `getD` only supplies a value outside that contract). -/
def pickPaymentProvider (r : ℚ) : PaymentProvider :=
  let idx := Int.floor (r * (PAYMENT_PROVIDERS.length : ℚ))
  PAYMENT_PROVIDERS.getD idx.toNat .ZapPay

/-- `randomId`: `'ord_' + rand` where `rand` is the 8-character slice of
`Math.random().toString(36)`, taken here as an abstract input string. -/
def randomId (rand : String) : String := "ord_" ++ rand

/-- Charge status strings `'success' | 'failed'`. -/
inductive ChargeStatus
  | success
  | failed
  deriving Repr, DecidableEq

/-- Result of `fakeCharge`. -/
structure ChargeResult where
  provider : PaymentProvider
  status : ChargeStatus
  latencyMs : Int
  deriving Repr, DecidableEq

/-- The latency draw of `fakeCharge`:
`min = Math.max(0, cfg.minMs)`, `max = Math.max(min, cfg.maxMs)`,
`latency = Math.floor(r * (max - min + 1)) + min`. -/
def drawLatency (cfg : ProviderConfig) (r : ℚ) : Int :=
  let lo := max 0 cfg.minMs
  let hi := max lo cfg.maxMs
  Int.floor (r * ((hi - lo + 1 : Int) : ℚ)) + lo

/-- `fakeCharge amount provider`: resolves the provider config, draws a
latency with random draw `latR`, sleeps for it (idealised: the measured
wall-clock duration equals the drawn latency), clamps the failure rate
into `[0,1]` and fails iff the draw `failR` is below the clamped rate.
The `amountMinor` argument is unused in the outcome, as in the source. -/
def fakeCharge (env : Env) (amountMinor : Int) (provider : PaymentProvider)
    (latR failR : ℚ) : ChargeResult :=
  let cfg := getProviderConfig env provider
  let latency := drawLatency cfg latR
  let failureRate := min (max cfg.failureRate 0) 1
  let failed := failR < failureRate
  ⟨provider, if failed then .failed else .success, latency⟩

/-- An entry of the in-memory `ORDERS` store:
`{ id, totalMinor, items }`. -/
structure Order where
  id : String
  totalMinor : Int
  items : List CartLine
  deriving Repr, DecidableEq

/-- The `items` field of the request body, as seen by
`(req.body?.items) || []` followed by `Array.isArray`:
either absent/falsy, a truthy non-array value, or an array of lines. -/
inductive ItemsField
  | absent
  | nonArrayValue
  | arr (items : List CartLine)
  deriving Repr, DecidableEq

/-- A checkout request body: the `items` field and the optional
`paymentProvider` string. -/
structure CheckoutRequest where
  items : ItemsField
  paymentProvider : Option String
  deriving Repr, DecidableEq

/-- `PAYMENT_PROVIDERS.find((p) => p === requestedProviderRaw) ?? pickPaymentProvider()`:
the requested provider when its name matches one of the three, otherwise
a uniformly random pick driven by `pickR`. -/
def resolveProvider (raw : Option String) (pickR : ℚ) : PaymentProvider :=
  match PAYMENT_PROVIDERS.find? (fun p => raw == some p.name) with
  | some p => p
  | none => pickPaymentProvider pickR

/-- `PRODUCTS.find((p) => p.id === line.productId)`. -/
def findProduct (productId : String) : Option Product :=
  PRODUCTS.find? (fun p => p.id == productId)

/-- The validation loop of the handler: walks the cart lines in order;
at the first line whose product is unknown or whose quantity is not
positive it stops with `none` (HTTP 400 `Invalid cart item`); otherwise
returns the accumulated `totalMinor`. -/
def computeTotal : List CartLine → Option Int
  | [] => some 0
  | line :: rest =>
    match findProduct line.productId with
    | none => none
    | some product =>
      if line.quantity ≤ 0 then none
      else (computeTotal rest).map (fun t => product.priceMinor * line.quantity + t)

/-- The handler's possible responses with their JSON error payloads. -/
inductive HandlerResponse
  | ok (orderId : String) (paymentProvider : PaymentProvider)
  | cartEmpty
  | invalidCartItem
  | paymentFailed
  | internalError
  deriving Repr, DecidableEq

/-- The HTTP status code of each response. -/
def HandlerResponse.status : HandlerResponse → Nat
  | .ok _ _ => 200
  | .cartEmpty => 400
  | .invalidCartItem => 400
  | .paymentFailed => 402
  | .internalError => 500

/-- The `error` field of the JSON payload, when the response is an
error; a success response carries no `error` field. -/
def HandlerResponse.errorMessage : HandlerResponse → Option String
  | .ok _ _ => none
  | .cartEmpty => some "Cart is empty"
  | .invalidCartItem => some "Invalid cart item"
  | .paymentFailed => some "Payment failed"
  | .internalError => some "Internal error"

/-- All `Math.random()` draws and the random id string a single request
may consume, made explicit. -/
structure Draws where
  pickR : ℚ
  reservedR : ℚ
  latR : ℚ
  failR : ℚ
  idRand : String
  deriving Repr, DecidableEq

/-- Outcome of one handler run: the response, the order store after the
request, the number of inventory-reservation draws performed, and the
list of `(amount, provider)` invocations of the payment simulator. -/
structure HandlerResult where
  response : HandlerResponse
  orders : List Order
  invDraws : Nat
  chargeCalls : List (Int × PaymentProvider)
  deriving Repr, DecidableEq

/-- The body of the `POST /api/checkout` handler (inside the try block),
as a pure function of the request, the randomness, the environment and
the current store. Mirrors the source line by line:
cast `items` (with `|| []`), resolve the provider, reject a non-array or
empty cart with 400, validate lines accumulating the total (400 on the
first bad line), draw the reservation (`Math.random() < 0.8`), invoke
`fakeCharge` once, return 402 if the charge failed or the reservation
did not hold, else push one order and return 200. -/
def checkoutBody (env : Env) (req : CheckoutRequest) (d : Draws)
    (orders : List Order) : HandlerResult :=
  let requestedProvider := resolveProvider req.paymentProvider d.pickR
  match (match req.items with | .absent => .arr [] | f => f : ItemsField) with
  | .absent => ⟨.cartEmpty, orders, 0, []⟩
  | .nonArrayValue => ⟨.cartEmpty, orders, 0, []⟩
  | .arr items =>
    if items.length = 0 then ⟨.cartEmpty, orders, 0, []⟩
    else
      match computeTotal items with
      | none => ⟨.invalidCartItem, orders, 0, []⟩
      | some totalMinor =>
        let reserved := d.reservedR < 4/5
        let charge := fakeCharge env totalMinor requestedProvider d.latR d.failR
        if charge.status = .failed ∨ ¬ reserved then
          ⟨.paymentFailed, orders, 1, [(totalMinor, requestedProvider)]⟩
        else
          let orderId := randomId d.idRand
          ⟨.ok orderId charge.provider,
           orders ++ [⟨orderId, totalMinor, items⟩], 1,
           [(totalMinor, requestedProvider)]⟩

/-- The handler boundary: the whole body sits inside `try ... catch`.
A propagated internal fault is modelled as an injected exception value
that aborts the body; the catch arm reports it to the observability sink
and answers with the constant 500 response, leaving the store untouched. -/
def runCheckout (env : Env) (req : CheckoutRequest) (d : Draws)
    (orders : List Order) (fault : Option String) : HandlerResult :=
  match fault with
  | some _ => ⟨.internalError, orders, 0, []⟩
  | none => checkoutBody env req d orders

/-- Sequential execution of a list of requests against the store,
threading `ORDERS` through. -/
def runRequests (env : Env) : List (CheckoutRequest × Draws) → List Order → List Order
  | [], orders => orders
  | (req, d) :: rest, orders =>
    runRequests env rest (checkoutBody env req d orders).orders

/-- The sum over the cart lines of the catalog unit price of the line's
product times the line's quantity (the price a line with an unknown
product would contribute is irrelevant: it is only consulted on carts
whose every product exists). -/
def catalogTotal (items : List CartLine) : Int :=
  (items.map
    (fun line => ((findProduct line.productId).map Product.priceMinor).getD 0 * line.quantity)).sum

/-- An environment that overrides ZapPay's latency window to the
negative range `[-10, -5]`, leaving everything else at its default. -/
def envNegLatency : Env :=
  ⟨fun p => if p = .ZapPay then some (-10) else none,
   fun p => if p = .ZapPay then some (-5) else none,
   fun _ => none⟩

section Lemmas

/-- On a validated cart, the handler reduces to the reservation/charge
decision: 402 leaving the store unchanged when the charge failed or the
reservation draw missed. -/
theorem checkoutBody_valid_fail (env : Env) (req : CheckoutRequest) (d : Draws)
    (orders : List Order) (items : List CartLine) (total : Int)
    (hitems : req.items = .arr items) (hne : items ≠ [])
    (htot : computeTotal items = some total)
    (hcond : (fakeCharge env total (resolveProvider req.paymentProvider d.pickR)
        d.latR d.failR).status = .failed ∨ ¬ (d.reservedR < 4/5)) :
    checkoutBody env req d orders =
      ⟨.paymentFailed, orders, 1,
       [(total, resolveProvider req.paymentProvider d.pickR)]⟩ := by
  have hlen : items.length ≠ 0 := by
    simpa [List.length_eq_zero] using hne
  simp only [checkoutBody, hitems, htot, hlen, if_false, if_pos hcond]

/-- On a validated cart with a held reservation and a successful charge,
the handler appends exactly one order and answers 200. -/
theorem checkoutBody_valid_success (env : Env) (req : CheckoutRequest) (d : Draws)
    (orders : List Order) (items : List CartLine) (total : Int)
    (hitems : req.items = .arr items) (hne : items ≠ [])
    (htot : computeTotal items = some total)
    (hcond : ¬ ((fakeCharge env total (resolveProvider req.paymentProvider d.pickR)
        d.latR d.failR).status = .failed ∨ ¬ (d.reservedR < 4/5))) :
    checkoutBody env req d orders =
      ⟨.ok (randomId d.idRand) (resolveProvider req.paymentProvider d.pickR),
       orders ++ [⟨randomId d.idRand, total, items⟩], 1,
       [(total, resolveProvider req.paymentProvider d.pickR)]⟩ := by
  have hlen : items.length ≠ 0 := by
    simpa [List.length_eq_zero] using hne
  simp only [checkoutBody, hitems, htot, hlen, if_false, if_neg hcond]
  rfl

/-- The status of a charge is success exactly when it is not failed. -/
theorem chargeStatus_not_failed (c : ChargeResult) :
    ¬ c.status = .failed ↔ c.status = .success := by
  cases h : c.status <;> simp

/-- One handler run appends a (possibly empty) suffix to the store, and
the ids of the appended orders are drawn from the request's `idRand`. -/
theorem checkoutBody_orders_shape (env : Env) (req : CheckoutRequest) (d : Draws)
    (orders : List Order) :
    ∃ l, (checkoutBody env req d orders).orders = orders ++ l ∧
      List.Sublist (l.map Order.id) [randomId d.idRand] := by
  unfold checkoutBody
  rcases req.items with _ | _ | items
  · exact ⟨[], by simp⟩
  · exact ⟨[], by simp⟩
  · simp only
    split
    · exact ⟨[], by simp⟩
    · split
      · exact ⟨[], by simp⟩
      · split
        · exact ⟨[], by simp⟩
        · rename_i t heq h
          exact ⟨[⟨randomId d.idRand, t, items⟩], by simp⟩

/-- Sequential runs only append orders, and the ids of the appended
orders are (in order) among the per-request random id strings. -/
theorem runRequests_shape (env : Env) (rds : List (CheckoutRequest × Draws)) :
    ∀ orders : List Order, ∃ l, runRequests env rds orders = orders ++ l ∧
      List.Sublist (l.map Order.id) (rds.map (fun rd => randomId rd.2.idRand)) := by
  induction rds with
  | nil => exact fun orders => ⟨[], by simp [runRequests]⟩
  | cons rd rest ih =>
    intro orders
    obtain ⟨req, d⟩ := rd
    obtain ⟨a, ha, hsa⟩ := checkoutBody_orders_shape env req d orders
    obtain ⟨l, hl, hsl⟩ := ih (orders ++ a)
    refine ⟨a ++ l, ?_, ?_⟩
    · simp only [runRequests]
      rw [ha, hl, List.append_assoc]
    · simpa using hsa.append hsl

/-- `randomId` is injective in the random string. -/
theorem randomId_injective : Function.Injective randomId := by
  intro r₁ r₂ h
  have hdata : ("ord_" ++ r₁).data = ("ord_" ++ r₂).data := congrArg String.data h
  have h₁ : "ord_".data ++ r₁.data = "ord_".data ++ r₂.data := by
    simpa using hdata
  have h₂ : r₁.data = r₂.data := List.append_cancel_left h₁
  cases r₁
  cases r₂
  exact congrArg String.mk h₂

/-- A first invalid line (unknown product or non-positive quantity)
anywhere in the cart makes validation fail. -/
theorem computeTotal_eq_none_of_invalid (items : List CartLine)
    (h : ∃ line ∈ items, findProduct line.productId = none ∨ line.quantity ≤ 0) :
    computeTotal items = none := by
  induction items with
  | nil => simp at h
  | cons line rest ih =>
    obtain ⟨l, hl, hbad⟩ := h
    rcases List.mem_cons.mp hl with rfl | hmem
    · rcases hbad with hnp | hq
      · simp [computeTotal, hnp]
      · cases hfind : findProduct l.productId <;> simp [computeTotal, hfind, hq]
    · cases hfind : findProduct line.productId with
      | none => simp [computeTotal, hfind]
      | some product =>
        by_cases hq : line.quantity ≤ 0
        · simp [computeTotal, hfind, hq]
        · simp [computeTotal, hfind, hq, ih ⟨l, hmem, hbad⟩]

/-- A validated total is the catalog total. -/
theorem computeTotal_eq_catalogTotal (items : List CartLine) (total : Int)
    (h : computeTotal items = some total) : total = catalogTotal items := by
  induction items generalizing total with
  | nil =>
    simp [computeTotal] at h
    simp [catalogTotal, ← h]
  | cons line rest ih =>
    cases hfind : findProduct line.productId with
    | none => simp [computeTotal, hfind] at h
    | some product =>
      by_cases hq : line.quantity ≤ 0
      · simp [computeTotal, hfind, hq] at h
      · cases hrest : computeTotal rest with
        | none => simp [computeTotal, hfind, hq, hrest] at h
        | some t =>
          have h' : product.priceMinor * line.quantity + t = total := by
            simpa [computeTotal, hfind, hq, hrest] using h
          subst h'
          rw [ih t hrest]
          simp [catalogTotal, hfind]

/-- Validation reads only the product id and the quantity of each line:
rewriting any client-supplied price field changes nothing. -/
theorem computeTotal_ignores_clientPrice (f : CartLine → Option Int)
    (items : List CartLine) :
    computeTotal (items.map (fun l => ⟨l.productId, l.quantity, f l⟩)) =
      computeTotal items := by
  induction items with
  | nil => rfl
  | cons line rest ih => simp [computeTotal, ih]

/-- A requested provider naming one of the three known providers is
selected as requested. -/
theorem resolveProvider_known (p : PaymentProvider) (pickR : ℚ) :
    resolveProvider (some p.name) pickR = p := by
  cases p <;> rfl

/-- A requested provider naming none of the three known providers falls
back to the random pick. -/
theorem resolveProvider_unknown (raw : Option String) (pickR : ℚ)
    (h : ∀ p : PaymentProvider, raw ≠ some p.name) :
    resolveProvider raw pickR = pickPaymentProvider pickR := by
  have hfind : PAYMENT_PROVIDERS.find? (fun p => raw == some p.name) = none := by
    rw [List.find?_eq_none]
    intro p _
    simpa using h p
  simp [resolveProvider, hfind]

/-- For a draw in `[0,1)`, `Math.floor(r * 3)` is 0, 1 or 2. -/
theorem floor_mul_three_cases (r : ℚ) (h0 : 0 ≤ r) (h1 : r < 1) :
    ⌊r * 3⌋ = 0 ∨ ⌊r * 3⌋ = 1 ∨ ⌊r * 3⌋ = 2 := by
  have hnn : (0:ℚ) ≤ r * 3 := by nlinarith
  have hlt : r * 3 < 3 := by nlinarith
  have l0 : (0:ℤ) ≤ ⌊r * 3⌋ := Int.floor_nonneg.mpr hnn
  have l3 : ⌊r * 3⌋ < 3 := Int.floor_lt.mpr (by exact_mod_cast hlt)
  omega

/-- The random pick always lands on one of the three providers when the
draw is in `[0,1)`. -/
theorem pickPaymentProvider_mem (r : ℚ) (h0 : 0 ≤ r) (h1 : r < 1) :
    pickPaymentProvider r ∈ PAYMENT_PROVIDERS := by
  have hlen : ((PAYMENT_PROVIDERS.length : ℕ) : ℚ) = 3 := by
    norm_num [PAYMENT_PROVIDERS]
  rcases floor_mul_three_cases r h0 h1 with h | h | h <;>
    simp [pickPaymentProvider, hlen, h, PAYMENT_PROVIDERS]

/-- The random pick partitions `[0,1)` into three equal-width cells:
the i-th provider is selected exactly when `r * 3` lies in `[i, i+1)`. -/
theorem pickPaymentProvider_uniform (r : ℚ) (h0 : 0 ≤ r) (h1 : r < 1) (i : Fin 3) :
    pickPaymentProvider r = PAYMENT_PROVIDERS.getD i.val .ZapPay ↔
      ((i.val : ℚ) ≤ r * 3 ∧ r * 3 < (i.val : ℚ) + 1) := by
  have hlen : ((PAYMENT_PROVIDERS.length : ℕ) : ℚ) = 3 := by
    norm_num [PAYMENT_PROVIDERS]
  have key : (pickPaymentProvider r = PAYMENT_PROVIDERS.getD i.val .ZapPay) ↔
      ⌊r * 3⌋ = (i.val : ℤ) := by
    fin_cases i <;> rcases floor_mul_three_cases r h0 h1 with h | h | h <;>
      simp [pickPaymentProvider, hlen, h, PAYMENT_PROVIDERS]
  rw [key, Int.floor_eq_iff]
  push_cast
  exact Iff.rfl

/-- The simulated latency lies in the clamped window
`[max 0 minMs, max (max 0 minMs) maxMs]` for every draw in `[0,1)`. -/
theorem drawLatency_bounds (cfg : ProviderConfig) (r : ℚ)
    (h0 : 0 ≤ r) (h1 : r < 1) :
    max 0 cfg.minMs ≤ drawLatency cfg r ∧
      drawLatency cfg r ≤ max (max 0 cfg.minMs) cfg.maxMs := by
  set lo := max 0 cfg.minMs with hlo
  set hi := max lo cfg.maxMs with hhi
  have hlohi : lo ≤ hi := le_max_left lo cfg.maxMs
  have hkpos : (0:Int) < hi - lo + 1 := by omega
  have hdef : drawLatency cfg r = ⌊r * ((hi - lo + 1 : Int) : ℚ)⌋ + lo := rfl
  have hfl0 : (0:Int) ≤ ⌊r * ((hi - lo + 1 : Int) : ℚ)⌋ := by
    apply Int.floor_nonneg.mpr
    apply mul_nonneg h0
    exact_mod_cast le_of_lt hkpos
  have hflk : ⌊r * ((hi - lo + 1 : Int) : ℚ)⌋ < hi - lo + 1 := by
    apply Int.floor_lt.mpr
    calc r * ((hi - lo + 1 : Int) : ℚ)
        < 1 * ((hi - lo + 1 : Int) : ℚ) := by
          apply mul_lt_mul_of_pos_right h1
          exact_mod_cast hkpos
      _ = ((hi - lo + 1 : Int) : ℚ) := one_mul _
  rw [hdef]
  omega

/-- The simulated latency is never negative when the draw is
non-negative, whatever the configured latencies are. -/
theorem drawLatency_nonneg (cfg : ProviderConfig) (r : ℚ) (h0 : 0 ≤ r) :
    0 ≤ drawLatency cfg r := by
  set lo := max 0 cfg.minMs with hlo
  set hi := max lo cfg.maxMs with hhi
  have hlo0 : (0:Int) ≤ lo := le_max_left 0 cfg.minMs
  have hlohi : lo ≤ hi := le_max_left lo cfg.maxMs
  have hdef : drawLatency cfg r = ⌊r * ((hi - lo + 1 : Int) : ℚ)⌋ + lo := rfl
  have hfl0 : (0:Int) ≤ ⌊r * ((hi - lo + 1 : Int) : ℚ)⌋ := by
    apply Int.floor_nonneg.mpr
    apply mul_nonneg h0
    exact_mod_cast by omega
  rw [hdef]
  omega

end Lemmas

section Claims

/-- C1: for every checkout request that passes cart validation, the
handler returns the success response (HTTP 200) and appends exactly one
Order to the store iff the inventory-reservation draw is true
(`reservedR < 0.8`) and the charge outcome is success; otherwise it
returns the single undifferentiated payment-failure response (HTTP 402)
and appends no Order. -/
theorem checkout_success_iff_reserved_and_charged
    (env : Env) (req : CheckoutRequest) (d : Draws) (orders : List Order)
    (items : List CartLine) (total : Int)
    (hitems : req.items = .arr items) (hne : items ≠ [])
    (htot : computeTotal items = some total) :
    (((checkoutBody env req d orders).response.status = 200 ∧
        (checkoutBody env req d orders).orders =
          orders ++ [⟨randomId d.idRand, total, items⟩]) ↔
      (d.reservedR < 4/5 ∧
        (fakeCharge env total (resolveProvider req.paymentProvider d.pickR)
          d.latR d.failR).status = .success)) ∧
    (¬ (d.reservedR < 4/5 ∧
        (fakeCharge env total (resolveProvider req.paymentProvider d.pickR)
          d.latR d.failR).status = .success) →
      (checkoutBody env req d orders).response = .paymentFailed ∧
      (checkoutBody env req d orders).response.status = 402 ∧
      (checkoutBody env req d orders).orders = orders) := by
  by_cases hcond : ((fakeCharge env total (resolveProvider req.paymentProvider d.pickR)
      d.latR d.failR).status = .failed ∨ ¬ (d.reservedR < 4/5))
  · rw [checkoutBody_valid_fail env req d orders items total hitems hne htot hcond]
    have hnot : ¬ (d.reservedR < 4/5 ∧
        (fakeCharge env total (resolveProvider req.paymentProvider d.pickR)
          d.latR d.failR).status = .success) := by
      rcases hcond with hfail | hres
      · rintro ⟨-, hsucc⟩
        rw [hsucc] at hfail
        exact absurd hfail (by simp)
      · rintro ⟨hr, -⟩
        exact hres hr
    constructor
    · constructor
      · rintro ⟨habs, -⟩
        simp [HandlerResponse.status] at habs
      · intro h
        exact absurd h hnot
    · intro _
      exact ⟨rfl, rfl, rfl⟩
  · rw [checkoutBody_valid_success env req d orders items total hitems hne htot hcond]
    push_neg at hcond
    have hsucc := (chargeStatus_not_failed _).mp hcond.1
    constructor
    · exact ⟨fun _ => ⟨hcond.2, hsucc⟩, fun _ => ⟨rfl, rfl⟩⟩
    · intro h
      exact absurd ⟨hcond.2, hsucc⟩ h

unseal Rat.mul Rat.inv Rat.add Rat.sub in
/-- Witness for C1: a one-line npe cart against ZapPay with draws that
reserve inventory and clear the charge yields 200 and exactly one
appended order. -/
theorem checkout_success_iff_reserved_and_charged_witness :
    ((⟨.arr [⟨"npe", 1, none⟩], some "ZapPay"⟩ : CheckoutRequest).items =
        .arr [⟨"npe", 1, none⟩] ∧
      ([⟨"npe", 1, none⟩] : List CartLine) ≠ [] ∧
      computeTotal [⟨"npe", 1, none⟩] = some 1299) ∧
    (checkoutBody Env.empty ⟨.arr [⟨"npe", 1, none⟩], some "ZapPay"⟩
        ⟨0, 0, 0, 1/2, "abc"⟩ []).response.status = 200 ∧
    (checkoutBody Env.empty ⟨.arr [⟨"npe", 1, none⟩], some "ZapPay"⟩
        ⟨0, 0, 0, 1/2, "abc"⟩ []).orders =
      [⟨randomId "abc", 1299, [⟨"npe", 1, none⟩]⟩] := by
  refine ⟨⟨rfl, by decide, by decide⟩, ?_⟩
  obtain ⟨h1, h2⟩ := (checkout_success_iff_reserved_and_charged Env.empty
    ⟨.arr [⟨"npe", 1, none⟩], some "ZapPay"⟩ ⟨0, 0, 0, 1/2, "abc"⟩ []
    [⟨"npe", 1, none⟩] 1299 rfl (by decide) (by decide)).1.mpr
    ⟨by decide, by decide⟩
  exact ⟨h1, by simpa using h2⟩

/-- C2: a cart that is an empty list, or contains a line with an unknown
product id or a non-positive quantity, is rejected with HTTP 400; no
inventory-reservation draw and no payment simulation occurs, and the
order store is unchanged. -/
theorem invalid_cart_rejected_without_side_effects
    (env : Env) (req : CheckoutRequest) (d : Draws) (orders : List Order)
    (items : List CartLine) (hitems : req.items = .arr items)
    (hbad : items = [] ∨
      ∃ line ∈ items, findProduct line.productId = none ∨ line.quantity ≤ 0) :
    (checkoutBody env req d orders).response.status = 400 ∧
    (checkoutBody env req d orders).orders = orders ∧
    (checkoutBody env req d orders).invDraws = 0 ∧
    (checkoutBody env req d orders).chargeCalls = [] := by
  rcases hbad with rfl | hbad
  · simp [checkoutBody, hitems, HandlerResponse.status]
  · have hnone := computeTotal_eq_none_of_invalid items hbad
    by_cases hlen : items.length = 0
    · simp [checkoutBody, hitems, hlen, HandlerResponse.status]
    · simp [checkoutBody, hitems, hlen, hnone, HandlerResponse.status]

unseal Rat.mul Rat.inv Rat.add Rat.sub in
/-- Witness for C2: a cart with an unknown product id is rejected with
400 and no side effects. -/
theorem invalid_cart_rejected_without_side_effects_witness :
    ((⟨.arr [⟨"unknown-id", 1, none⟩], none⟩ : CheckoutRequest).items =
        .arr [⟨"unknown-id", 1, none⟩] ∧
      (([⟨"unknown-id", 1, none⟩] : List CartLine) = [] ∨
        ∃ line ∈ ([⟨"unknown-id", 1, none⟩] : List CartLine),
          findProduct line.productId = none ∨ line.quantity ≤ 0)) ∧
    (checkoutBody Env.empty ⟨.arr [⟨"unknown-id", 1, none⟩], none⟩
        ⟨0, 0, 0, 0, "abc"⟩ []).response.status = 400 ∧
    (checkoutBody Env.empty ⟨.arr [⟨"unknown-id", 1, none⟩], none⟩
        ⟨0, 0, 0, 0, "abc"⟩ []).orders = [] ∧
    (checkoutBody Env.empty ⟨.arr [⟨"unknown-id", 1, none⟩], none⟩
        ⟨0, 0, 0, 0, "abc"⟩ []).invDraws = 0 ∧
    (checkoutBody Env.empty ⟨.arr [⟨"unknown-id", 1, none⟩], none⟩
        ⟨0, 0, 0, 0, "abc"⟩ []).chargeCalls = [] := by
  have hbad : (([⟨"unknown-id", 1, none⟩] : List CartLine) = [] ∨
      ∃ line ∈ ([⟨"unknown-id", 1, none⟩] : List CartLine),
        findProduct line.productId = none ∨ line.quantity ≤ 0) :=
    Or.inr ⟨⟨"unknown-id", 1, none⟩, by decide, Or.inl (by decide)⟩
  exact ⟨⟨rfl, hbad⟩,
    invalid_cart_rejected_without_side_effects Env.empty
      ⟨.arr [⟨"unknown-id", 1, none⟩], none⟩ ⟨0, 0, 0, 0, "abc"⟩ []
      [⟨"unknown-id", 1, none⟩] rfl hbad⟩

/-- C3: on a successful checkout the appended order's total equals the
sum over the cart lines of catalog unit price times quantity, and
validation is blind to any client-supplied price field. -/
theorem order_total_is_catalog_total
    (env : Env) (req : CheckoutRequest) (d : Draws) (orders : List Order)
    (items : List CartLine) (total : Int)
    (hitems : req.items = .arr items) (hne : items ≠ [])
    (htot : computeTotal items = some total)
    (hsucc : d.reservedR < 4/5 ∧
      (fakeCharge env total (resolveProvider req.paymentProvider d.pickR)
        d.latR d.failR).status = .success) :
    (checkoutBody env req d orders).orders =
      orders ++ [⟨randomId d.idRand, total, items⟩] ∧
    total = catalogTotal items ∧
    (∀ f : CartLine → Option Int,
      computeTotal (items.map (fun l => ⟨l.productId, l.quantity, f l⟩)) =
        computeTotal items) := by
  have hcond : ¬ ((fakeCharge env total (resolveProvider req.paymentProvider d.pickR)
      d.latR d.failR).status = .failed ∨ ¬ (d.reservedR < 4/5)) := by
    push_neg
    refine ⟨?_, hsucc.1⟩
    rw [hsucc.2]
    simp
  rw [checkoutBody_valid_success env req d orders items total hitems hne htot hcond]
  exact ⟨rfl, computeTotal_eq_catalogTotal items total htot,
    fun f => computeTotal_ignores_clientPrice f items⟩

unseal Rat.mul Rat.inv Rat.add Rat.sub in
/-- Witness for C3: the §8 scenario cart npe×1 at price 1299 on the
success path records total 1299, the catalog total. -/
theorem order_total_is_catalog_total_witness :
    ((⟨.arr [⟨"npe", 1, some 1⟩], some "ZapPay"⟩ : CheckoutRequest).items =
        .arr [⟨"npe", 1, some 1⟩] ∧
      ([⟨"npe", 1, some 1⟩] : List CartLine) ≠ [] ∧
      computeTotal [⟨"npe", 1, some 1⟩] = some 1299 ∧
      ((0:ℚ) < 4/5 ∧
        (fakeCharge Env.empty 1299 (resolveProvider (some "ZapPay") 0)
          0 (1/2)).status = .success)) ∧
    (checkoutBody Env.empty ⟨.arr [⟨"npe", 1, some 1⟩], some "ZapPay"⟩
        ⟨0, 0, 0, 1/2, "abc"⟩ []).orders =
      [] ++ [⟨randomId "abc", 1299, [⟨"npe", 1, some 1⟩]⟩] ∧
    (1299 : Int) = catalogTotal [⟨"npe", 1, some 1⟩] := by
  refine ⟨⟨rfl, by decide, by decide, by decide, by decide⟩, ?_⟩
  obtain ⟨h1, h2, -⟩ := order_total_is_catalog_total Env.empty
    ⟨.arr [⟨"npe", 1, some 1⟩], some "ZapPay"⟩ ⟨0, 0, 0, 1/2, "abc"⟩ []
    [⟨"npe", 1, some 1⟩] 1299 rfl (by decide) (by decide) ⟨by decide, by decide⟩
  exact ⟨h1, h2⟩

/-- C9: a request body without an `items` array (field absent/falsy, or
a truthy non-array value) is handled exactly like an empty cart: HTTP
400 with the `Cart is empty` message, store unchanged, and the result
coincides with that of an explicit empty-array cart. -/
theorem missing_items_field_treated_as_empty_cart
    (env : Env) (req : CheckoutRequest) (d : Draws) (orders : List Order)
    (h : req.items = .absent ∨ req.items = .nonArrayValue) :
    (checkoutBody env req d orders).response = .cartEmpty ∧
    (checkoutBody env req d orders).response.status = 400 ∧
    (checkoutBody env req d orders).response.errorMessage =
      some "Cart is empty" ∧
    (checkoutBody env req d orders).orders = orders ∧
    checkoutBody env req d orders =
      checkoutBody env ⟨.arr [], req.paymentProvider⟩ d orders := by
  rcases h with h | h <;>
    simp [checkoutBody, h, HandlerResponse.status, HandlerResponse.errorMessage]

unseal Rat.mul Rat.inv Rat.add Rat.sub in
/-- Witness for C9: a body whose `items` is a non-array value gets the
empty-cart rejection. -/
theorem missing_items_field_treated_as_empty_cart_witness :
    ((⟨.nonArrayValue, none⟩ : CheckoutRequest).items = .absent ∨
      (⟨.nonArrayValue, none⟩ : CheckoutRequest).items = .nonArrayValue) ∧
    (checkoutBody Env.empty ⟨.nonArrayValue, none⟩
        ⟨0, 0, 0, 0, "abc"⟩ []).response = .cartEmpty ∧
    (checkoutBody Env.empty ⟨.nonArrayValue, none⟩
        ⟨0, 0, 0, 0, "abc"⟩ []).response.errorMessage = some "Cart is empty" ∧
    (checkoutBody Env.empty ⟨.nonArrayValue, none⟩
        ⟨0, 0, 0, 0, "abc"⟩ []).orders = [] := by
  have h := missing_items_field_treated_as_empty_cart Env.empty
    ⟨.nonArrayValue, none⟩ ⟨0, 0, 0, 0, "abc"⟩ [] (Or.inr rfl)
  exact ⟨Or.inr rfl, h.1, h.2.2.1, h.2.2.2.1⟩

unseal Rat.mul Rat.inv Rat.add Rat.sub in
/-- C4 counterexample: with the (unvalidated) resolved ZapPay config
`minMs = -10, maxMs = -5` (a legal outcome of numeric env overrides) and
the legitimate draw `r = 0`, the simulator's latency is 0, which lies
outside the claim's interval `[minMs, max minMs maxMs] = [-10, -5]`:
the simulator first clamps the resolved minimum up to 0, a step the
claim omits. -/
theorem latency_window_claim_counterexample :
    (getProviderConfig envNegLatency .ZapPay).minMs = -10 ∧
    (getProviderConfig envNegLatency .ZapPay).maxMs = -5 ∧
    (fakeCharge envNegLatency 0 .ZapPay 0 0).latencyMs = 0 ∧
    ¬ ((fakeCharge envNegLatency 0 .ZapPay 0 0).latencyMs ≤
        max (getProviderConfig envNegLatency .ZapPay).minMs
          (getProviderConfig envNegLatency .ZapPay).maxMs) := by
  decide

/-- C4 amended: the latency drawn by the payment simulator lies within
the clamped window of the resolved config: the minimum is first clamped
up to 0, then the maximum is clamped up to that clamped minimum, and
the draw lands in `[max 0 minMs, max (max 0 minMs) maxMs]` inclusive. -/
theorem charge_latency_within_clamped_window
    (env : Env) (amountMinor : Int) (provider : PaymentProvider)
    (latR failR : ℚ) (h0 : 0 ≤ latR) (h1 : latR < 1) :
    max 0 (getProviderConfig env provider).minMs ≤
      (fakeCharge env amountMinor provider latR failR).latencyMs ∧
    (fakeCharge env amountMinor provider latR failR).latencyMs ≤
      max (max 0 (getProviderConfig env provider).minMs)
        (getProviderConfig env provider).maxMs :=
  drawLatency_bounds (getProviderConfig env provider) latR h0 h1

unseal Rat.mul Rat.inv Rat.add Rat.sub in
/-- Witness for the amended C4 on the negative-latency override: the
clamped window degenerates to `[0, 0]` and the drawn latency is in it. -/
theorem charge_latency_within_clamped_window_witness :
    ((0:ℚ) ≤ 1/2 ∧ (1/2 : ℚ) < 1) ∧
    max 0 (getProviderConfig envNegLatency .ZapPay).minMs ≤
      (fakeCharge envNegLatency 0 .ZapPay (1/2) 0).latencyMs ∧
    (fakeCharge envNegLatency 0 .ZapPay (1/2) 0).latencyMs ≤
      max (max 0 (getProviderConfig envNegLatency .ZapPay).minMs)
        (getProviderConfig envNegLatency .ZapPay).maxMs :=
  ⟨⟨by decide, by decide⟩,
   charge_latency_within_clamped_window envNegLatency 0 .ZapPay (1/2) 0
     (by decide) (by decide)⟩

unseal Rat.mul Rat.inv Rat.add Rat.sub in
/-- C5 counterexample: the id generator is pure randomness with no
uniqueness check, so two successful checkouts whose 8-character random
strings coincide append two distinct Orders carrying the same
identifier `ord_dup00000`. -/
theorem order_id_collision_counterexample :
    runRequests Env.empty
      [(⟨.arr [⟨"npe", 1, none⟩], some "ZapPay"⟩, ⟨0, 0, 0, 1/2, "dup00000"⟩),
       (⟨.arr [⟨"oom", 1, none⟩], some "ZapPay"⟩, ⟨0, 0, 0, 1/2, "dup00000"⟩)] [] =
      [⟨"ord_dup00000", 1299, [⟨"npe", 1, none⟩]⟩,
       ⟨"ord_dup00000", 2499, [⟨"oom", 1, none⟩]⟩] ∧
    (⟨"ord_dup00000", 1299, [⟨"npe", 1, none⟩]⟩ : Order) ≠
      ⟨"ord_dup00000", 2499, [⟨"oom", 1, none⟩]⟩ ∧
    Order.id ⟨"ord_dup00000", 1299, [⟨"npe", 1, none⟩]⟩ =
      Order.id ⟨"ord_dup00000", 2499, [⟨"oom", 1, none⟩]⟩ := by
  decide

/-- C5 amended: order identifiers are pairwise distinct across a
process lifetime provided the underlying random id strings drawn for
the requests are pairwise distinct — `randomId` is injective and every
appended order's id comes from its request's draw, but nothing in the
code prevents two draws from coinciding. -/
theorem order_ids_nodup_of_distinct_draws (env : Env)
    (rds : List (CheckoutRequest × Draws))
    (h : (rds.map (fun rd => rd.2.idRand)).Nodup) :
    ((runRequests env rds []).map Order.id).Nodup := by
  obtain ⟨l, hl, hsub⟩ := runRequests_shape env rds []
  rw [hl, List.nil_append]
  have hids : (rds.map (fun rd => randomId rd.2.idRand)).Nodup := by
    have hmapped := h.map randomId_injective
    rw [List.map_map] at hmapped
    exact hmapped
  exact List.Nodup.sublist hsub hids

unseal Rat.mul Rat.inv Rat.add Rat.sub in
/-- Witness for the amended C5: two checkouts with distinct random id
strings leave a store whose identifiers are pairwise distinct. -/
theorem order_ids_nodup_of_distinct_draws_witness :
    (([(((⟨.arr [⟨"npe", 1, none⟩], some "ZapPay"⟩ : CheckoutRequest),
          (⟨0, 0, 0, 1/2, "aaa00000"⟩ : Draws))),
       (((⟨.arr [⟨"oom", 1, none⟩], some "ZapPay"⟩ : CheckoutRequest),
          (⟨0, 0, 0, 1/2, "bbb00000"⟩ : Draws)))].map
        (fun rd => rd.2.idRand)).Nodup) ∧
    ((runRequests Env.empty
        [(⟨.arr [⟨"npe", 1, none⟩], some "ZapPay"⟩, ⟨0, 0, 0, 1/2, "aaa00000"⟩),
         (⟨.arr [⟨"oom", 1, none⟩], some "ZapPay"⟩, ⟨0, 0, 0, 1/2, "bbb00000"⟩)] []).map
      Order.id).Nodup :=
  ⟨by decide,
   order_ids_nodup_of_distinct_draws Env.empty
     [(⟨.arr [⟨"npe", 1, none⟩], some "ZapPay"⟩, ⟨0, 0, 0, 1/2, "aaa00000"⟩),
      (⟨.arr [⟨"oom", 1, none⟩], some "ZapPay"⟩, ⟨0, 0, 0, 1/2, "bbb00000"⟩)]
     (by decide)⟩

/-- C6: on every request that reaches the charging state, the payment
simulator is invoked exactly once with the selected provider; the
selected provider is the caller's requested provider when it names one
of the three, and otherwise it is the random pick, which lands on one
of the three and partitions the unit draw interval into three
equal-width cells (`r * 3 ∈ [i, i+1)` selects the i-th provider). -/
theorem provider_selection_and_single_charge
    (env : Env) (req : CheckoutRequest) (d : Draws) (orders : List Order)
    (items : List CartLine) (total : Int)
    (hitems : req.items = .arr items) (hne : items ≠ [])
    (htot : computeTotal items = some total)
    (h0 : 0 ≤ d.pickR) (h1 : d.pickR < 1) :
    (checkoutBody env req d orders).chargeCalls =
      [(total, resolveProvider req.paymentProvider d.pickR)] ∧
    (∀ p : PaymentProvider, req.paymentProvider = some p.name →
      resolveProvider req.paymentProvider d.pickR = p) ∧
    ((∀ p : PaymentProvider, req.paymentProvider ≠ some p.name) →
      resolveProvider req.paymentProvider d.pickR = pickPaymentProvider d.pickR ∧
      pickPaymentProvider d.pickR ∈ PAYMENT_PROVIDERS ∧
      (∀ i : Fin 3,
        pickPaymentProvider d.pickR = PAYMENT_PROVIDERS.getD i.val .ZapPay ↔
          ((i.val : ℚ) ≤ d.pickR * 3 ∧ d.pickR * 3 < (i.val : ℚ) + 1))) := by
  refine ⟨?_, ?_, ?_⟩
  · by_cases hcond : ((fakeCharge env total
        (resolveProvider req.paymentProvider d.pickR) d.latR d.failR).status =
          .failed ∨ ¬ (d.reservedR < 4/5))
    · rw [checkoutBody_valid_fail env req d orders items total hitems hne htot hcond]
    · rw [checkoutBody_valid_success env req d orders items total hitems hne htot hcond]
  · intro p hp
    rw [hp]
    exact resolveProvider_known p d.pickR
  · intro hunk
    exact ⟨resolveProvider_unknown req.paymentProvider d.pickR hunk,
      pickPaymentProvider_mem d.pickR h0 h1,
      fun i => pickPaymentProvider_uniform d.pickR h0 h1 i⟩

unseal Rat.mul Rat.inv Rat.add Rat.sub in
/-- Witness for C6: a valid cart requesting the unknown provider name
Bogus with pick draw 1/2 invokes the simulator once with the randomly
picked provider. -/
theorem provider_selection_and_single_charge_witness :
    ((⟨.arr [⟨"npe", 1, none⟩], some "Bogus"⟩ : CheckoutRequest).items =
        .arr [⟨"npe", 1, none⟩] ∧
      ([⟨"npe", 1, none⟩] : List CartLine) ≠ [] ∧
      computeTotal [⟨"npe", 1, none⟩] = some 1299 ∧
      (0:ℚ) ≤ 1/2 ∧ (1/2 : ℚ) < 1) ∧
    (checkoutBody Env.empty ⟨.arr [⟨"npe", 1, none⟩], some "Bogus"⟩
        ⟨1/2, 0, 0, 1/2, "abc"⟩ []).chargeCalls =
      [(1299, resolveProvider (some "Bogus") (1/2))] ∧
    resolveProvider (some "Bogus") (1/2) = pickPaymentProvider (1/2) := by
  refine ⟨⟨rfl, by decide, by decide, by decide, by decide⟩, ?_⟩
  obtain ⟨h1, -, h3⟩ := provider_selection_and_single_charge Env.empty
    ⟨.arr [⟨"npe", 1, none⟩], some "Bogus"⟩ ⟨1/2, 0, 0, 1/2, "abc"⟩ []
    [⟨"npe", 1, none⟩] 1299 rfl (by decide) (by decide) (by decide) (by decide)
  exact ⟨h1, (h3 (by intro p; cases p <;> decide)).1⟩

/-- C7: a propagated internal fault is caught at the handler boundary:
the response is the constant generic 500 (`Internal error`), carrying
no information about the fault, and the order store is untouched. -/
theorem internal_fault_caught_generic_500
    (env : Env) (req : CheckoutRequest) (d : Draws) (orders : List Order)
    (e : String) :
    runCheckout env req d orders (some e) =
      ⟨.internalError, orders, 0, []⟩ ∧
    (runCheckout env req d orders (some e)).response.status = 500 ∧
    (runCheckout env req d orders (some e)).response.errorMessage =
      some "Internal error" ∧
    (runCheckout env req d orders (some e)).orders = orders ∧
    (∀ e' : String,
      runCheckout env req d orders (some e') =
        runCheckout env req d orders (some e)) :=
  ⟨rfl, rfl, rfl, rfl, fun _ => rfl⟩

/-- C8: against a provider whose resolved configuration has
`failureRate = 1`, the charge always comes back failed (the clamped
rate is 1 and every draw in `[0,1)` is below it), so every validated
checkout is answered with the 402 business rejection and no order,
regardless of the inventory-reservation draw (the draws `d` are
universally quantified, in particular `d.reservedR`). -/
theorem failure_rate_one_always_rejected
    (env : Env) (req : CheckoutRequest) (d : Draws) (orders : List Order)
    (items : List CartLine) (total : Int)
    (hitems : req.items = .arr items) (hne : items ≠ [])
    (htot : computeTotal items = some total)
    (hfr : (getProviderConfig env
      (resolveProvider req.paymentProvider d.pickR)).failureRate = 1)
    (hdraw : d.failR < 1) :
    (fakeCharge env total (resolveProvider req.paymentProvider d.pickR)
      d.latR d.failR).status = .failed ∧
    (checkoutBody env req d orders).response = .paymentFailed ∧
    (checkoutBody env req d orders).response.status = 402 ∧
    (checkoutBody env req d orders).orders = orders := by
  have hst : (fakeCharge env total (resolveProvider req.paymentProvider d.pickR)
      d.latR d.failR).status = .failed := by
    simp only [fakeCharge, hfr]
    norm_num [hdraw]
  refine ⟨hst, ?_⟩
  rw [checkoutBody_valid_fail env req d orders items total hitems hne htot
    (Or.inl hst)]
  exact ⟨rfl, rfl, rfl⟩

unseal Rat.mul Rat.inv Rat.add Rat.sub in
/-- Witness for C8: ZapPay overridden to `failureRate = 1`; even with a
reservation draw that would hold (0 < 0.8), the checkout is rejected
with 402. -/
theorem failure_rate_one_always_rejected_witness :
    ((⟨.arr [⟨"npe", 1, none⟩], some "ZapPay"⟩ : CheckoutRequest).items =
        .arr [⟨"npe", 1, none⟩] ∧
      ([⟨"npe", 1, none⟩] : List CartLine) ≠ [] ∧
      computeTotal [⟨"npe", 1, none⟩] = some 1299 ∧
      (getProviderConfig ⟨fun _ => none, fun _ => none,
        fun p => if p = .ZapPay then some 1 else none⟩
        (resolveProvider (some "ZapPay") 0)).failureRate = 1 ∧
      ((1:ℚ)/2) < 1) ∧
    (checkoutBody ⟨fun _ => none, fun _ => none,
        fun p => if p = .ZapPay then some 1 else none⟩
      ⟨.arr [⟨"npe", 1, none⟩], some "ZapPay"⟩
      ⟨0, 0, 0, 1/2, "abc"⟩ []).response = .paymentFailed ∧
    (checkoutBody ⟨fun _ => none, fun _ => none,
        fun p => if p = .ZapPay then some 1 else none⟩
      ⟨.arr [⟨"npe", 1, none⟩], some "ZapPay"⟩
      ⟨0, 0, 0, 1/2, "abc"⟩ []).orders = [] := by
  refine ⟨⟨rfl, by decide, by decide, by decide, by decide⟩, ?_⟩
  obtain ⟨-, h2, -, h4⟩ := failure_rate_one_always_rejected
    ⟨fun _ => none, fun _ => none, fun p => if p = .ZapPay then some 1 else none⟩
    ⟨.arr [⟨"npe", 1, none⟩], some "ZapPay"⟩ ⟨0, 0, 0, 1/2, "abc"⟩ []
    [⟨"npe", 1, none⟩] 1299 rfl (by decide) (by decide) (by decide) (by decide)
  exact ⟨h2, h4⟩

/-- C10: whatever the configured latencies — including negative ones —
the simulator clamps the resolved minimum to at least 0 before clamping
the maximum and drawing, so the drawn sleep duration is never
negative. -/
theorem charge_latency_nonneg
    (env : Env) (amountMinor : Int) (provider : PaymentProvider)
    (latR failR : ℚ) (h0 : 0 ≤ latR) :
    0 ≤ (fakeCharge env amountMinor provider latR failR).latencyMs :=
  drawLatency_nonneg (getProviderConfig env provider) latR h0

unseal Rat.mul Rat.inv Rat.add Rat.sub in
/-- Witness for C10 on the negative-latency override env: the drawn
latency is still non-negative. -/
theorem charge_latency_nonneg_witness :
    ((0:ℚ) ≤ 1/2) ∧
    0 ≤ (fakeCharge envNegLatency 0 .ZapPay (1/2) 0).latencyMs :=
  ⟨by decide, charge_latency_nonneg envNegLatency 0 .ZapPay (1/2) 0 (by decide)⟩

end Claims

end CrashCommerce
